import Mathlib

/-!
Shallow embedding of the carintel API-key gate: the stored functions
`validate_api_key`, `increment_daily_usage` and `get_org_monthly_usage`
from `supabase/migrations/20231205000002_create_api_infrastructure.sql`,
with `validate_api_key` as redefined (org-status check added) in the later
admin-system migration.

Modelling conventions:
  * timestamps and dates are `Int` (NOW() and the first day of the current
    month become explicit parameters `now` / `monthStart`);
  * nullable SQL columns are `Option`;
  * a plpgsql `SELECT * INTO rec` that finds no row leaves `rec` a record
    of NULLs, so record lookups are `Option` and field access goes through
    `Option.bind` / `Option.map`;
  * SQL three-valued logic: a WHERE/IF condition involving NULL that
    evaluates to UNKNOWN is treated as not taken, which the embedding
    reproduces by matching on the `Option` before comparing.
-/

namespace CarIntel

/-- Row of `api_keys` (columns used by the gate). `is_active` and
`expires_at` are nullable in the schema. -/
structure ApiKey where
  id : Nat
  organization_id : Nat
  key_hash : String
  rate_limit_override : Option Int
  is_active : Option Bool
  last_used_at : Option Int
  expires_at : Option Int
deriving DecidableEq

/-- Row of `organizations` (columns used by the gate). `status`,
`subscription_status` and `subscription_tier_id` are all nullable. -/
structure Organization where
  id : Nat
  name : String
  subscription_tier_id : Option String
  subscription_status : Option String
  status : Option String
deriving DecidableEq

/-- Row of `subscription_tiers`. `monthly_token_limit` is nullable
(NULL = unlimited); `rate_limit_per_minute` is NOT NULL. -/
structure SubscriptionTier where
  id : String
  monthly_token_limit : Option Int
  rate_limit_per_minute : Int
deriving DecidableEq

/-- Row of `usage_daily`. -/
structure UsageDaily where
  organization_id : Nat
  date : Int
  source : String
  endpoint : String
  request_count : Int
  tokens_used : Int
deriving DecidableEq

/-- The database state the gate reads and writes. -/
structure DB where
  api_keys : List ApiKey
  organizations : List Organization
  subscription_tiers : List SubscriptionTier
  usage_daily : List UsageDaily
deriving DecidableEq

/-- The row type returned by `validate_api_key` (RETURNS TABLE). -/
structure KeyValidation where
  api_key_id : Option Nat
  organization_id : Option Nat
  org_name : Option String
  tier_id : Option String
  rate_limit : Option Int
  monthly_limit : Option Int
  is_valid : Bool
  rejection_reason : Option String
deriving DecidableEq

/-- `SELECT * FROM api_keys WHERE key_hash = p_key_hash` (key_hash is
UNIQUE, so at most one row). -/
def findKey (db : DB) (p_key_hash : String) : Option ApiKey :=
  db.api_keys.find? fun k => k.key_hash == p_key_hash

/-- `SELECT * FROM organizations WHERE id = ...`. -/
def findOrg (db : DB) (oid : Nat) : Option Organization :=
  db.organizations.find? fun o => o.id == oid

/-- `SELECT * FROM subscription_tiers WHERE id = v_org_record.subscription_tier_id`;
when the org record holds a NULL tier id no row matches. -/
def findTier (db : DB) (tid : Option String) : Option SubscriptionTier :=
  match tid with
  | some t => db.subscription_tiers.find? fun st => st.id == t
  | none => none

/-- `expires_at IS NOT NULL AND expires_at < NOW()`. -/
def keyExpired (k : ApiKey) (now : Int) : Bool :=
  match k.expires_at with
  | some t => decide (t < now)
  | none => false

/-- `status IS NOT NULL AND status != 'active'`: returns the blocking
status when the check fires.  A NULL org record contributes a NULL
status. -/
def orgStatusBlocked (o : Option Organization) : Option String :=
  match o.bind Organization.status with
  | some s => if s = "active" then none else some s
  | none => none

/-- `subscription_status != 'active' AND subscription_status != 'trialing'`;
under three-valued logic a NULL subscription status does not fire. -/
def subscriptionBlocked (o : Option Organization) : Bool :=
  match o.bind Organization.subscription_status with
  | some ss => ss != "active" && ss != "trialing"
  | none => false

/-- `get_org_monthly_usage(org_id)`: `(COALESCE(SUM(request_count),0),
COALESCE(SUM(tokens_used),0))` over `usage_daily` rows of the organization
with `date >= date_trunc('month', CURRENT_DATE)` (the month start is the
`monthStart` parameter). -/
def get_org_monthly_usage (db : DB) (org_id : Nat) (monthStart : Int) : Int × Int :=
  db.usage_daily.foldr
    (fun r acc =>
      if r.organization_id = org_id ∧ monthStart ≤ r.date then
        (acc.1 + r.request_count, acc.2 + r.tokens_used)
      else acc)
    (0, 0)

/-- `COALESCE(a, b)` on two nullable values. -/
def coalesce (a b : Option Int) : Option Int :=
  match a with
  | some x => some x
  | none => b

/-- `UPDATE api_keys SET last_used_at = NOW() WHERE id = v_key_record.id`. -/
def touchKey (db : DB) (kid : Nat) (now : Int) : DB :=
  { db with api_keys :=
      db.api_keys.map fun k =>
        if k.id = kid then { k with last_used_at := some now } else k }

/-- Steps 6-7 of `validate_api_key`: the quota check on the tier record
(`tier` is the tier lookup result, a NULL record when absent), then the
`last_used_at` update and the success row. -/
def tierPhase (db : DB) (k : ApiKey) (o : Option Organization)
    (tier : Option SubscriptionTier) (now monthStart : Int) :
    KeyValidation × DB :=
  match tier.bind SubscriptionTier.monthly_token_limit with
  | some lim =>
    if lim ≤ (get_org_monthly_usage db k.organization_id monthStart).2 then
      ({ api_key_id := some k.id, organization_id := some k.organization_id,
         org_name := o.map Organization.name,
         tier_id := o.bind Organization.subscription_tier_id,
         rate_limit := coalesce k.rate_limit_override
           (tier.map SubscriptionTier.rate_limit_per_minute),
         monthly_limit := some lim,
         is_valid := false,
         rejection_reason := some ("quota_exceeded") },
       db)
    else
      ({ api_key_id := some k.id, organization_id := some k.organization_id,
         org_name := o.map Organization.name,
         tier_id := o.bind Organization.subscription_tier_id,
         rate_limit := coalesce k.rate_limit_override
           (tier.map SubscriptionTier.rate_limit_per_minute),
         monthly_limit := some lim,
         is_valid := true, rejection_reason := none },
       touchKey db k.id now)
  | none =>
    ({ api_key_id := some k.id, organization_id := some k.organization_id,
       org_name := o.map Organization.name,
       tier_id := o.bind Organization.subscription_tier_id,
       rate_limit := coalesce k.rate_limit_override
         (tier.map SubscriptionTier.rate_limit_per_minute),
       monthly_limit := none,
       is_valid := true, rejection_reason := none },
     touchKey db k.id now)

/-- Steps 4-7 of `validate_api_key` (after the key-level checks): check
organization status and subscription status on the organization lookup
result `o` (a NULL record when absent), then look up the tier and run the
quota phase. -/
def orgPhase (db : DB) (k : ApiKey) (o : Option Organization)
    (now monthStart : Int) : KeyValidation × DB :=
  match orgStatusBlocked o with
  | some s =>
    ({ api_key_id := some k.id, organization_id := some k.organization_id,
       org_name := o.map Organization.name,
       tier_id := o.bind Organization.subscription_tier_id,
       rate_limit := none, monthly_limit := none,
       is_valid := false,
       rejection_reason := some ("organization_" ++ s) }, db)
  | none =>
    if subscriptionBlocked o then
      ({ api_key_id := some k.id, organization_id := some k.organization_id,
         org_name := o.map Organization.name,
         tier_id := o.bind Organization.subscription_tier_id,
         rate_limit := none, monthly_limit := none,
         is_valid := false,
         rejection_reason := some ("subscription_inactive") }, db)
    else
      tierPhase db k o (findTier db (o.bind Organization.subscription_tier_id))
        now monthStart

/-- Steps 2-7 of `validate_api_key` for the matched key record `k`: the
`is_active` check, the expiry check, then the organization lookup and the
organization phase. -/
def keyPhase (db : DB) (k : ApiKey) (now monthStart : Int) :
    KeyValidation × DB :=
  if k.is_active = some false then
    ({ api_key_id := some k.id, organization_id := some k.organization_id,
       org_name := none, tier_id := none, rate_limit := none,
       monthly_limit := none, is_valid := false,
       rejection_reason := some ("key_disabled") }, db)
  else if keyExpired k now then
    ({ api_key_id := some k.id, organization_id := some k.organization_id,
       org_name := none, tier_id := none, rate_limit := none,
       monthly_limit := none, is_valid := false,
       rejection_reason := some ("key_expired") }, db)
  else
    orgPhase db k (findOrg db k.organization_id) now monthStart

/-- `validate_api_key(p_key_hash)`: sequential early-return checks in the
source order (invalid_key, key_disabled, key_expired, organization status,
subscription status, quota), then the `last_used_at` update and the
success row.  Returns the result row together with the updated database. -/
def validate_api_key (db : DB) (p_key_hash : String)
    (now monthStart : Int) : KeyValidation × DB :=
  match findKey db p_key_hash with
  | none =>
    ({ api_key_id := none, organization_id := none, org_name := none,
       tier_id := none, rate_limit := none, monthly_limit := none,
       is_valid := false, rejection_reason := some ("invalid_key") }, db)
  | some k => keyPhase db k now monthStart

/-- Composite key match for a `usage_daily` row:
`(organization_id, date, source, endpoint)`. -/
def dailyKeyMatch (r : UsageDaily) (oid : Nat) (d : Int)
    (src ep : String) : Bool :=
  r.organization_id == oid && r.date == d && r.source == src && r.endpoint == ep

/-- `increment_daily_usage(p_org_id, p_date, p_source, p_endpoint,
p_requests, p_tokens)`: `INSERT ... ON CONFLICT (organization_id, date,
source, endpoint) DO UPDATE SET request_count = request_count + p_requests,
tokens_used = tokens_used + p_tokens`. -/
def increment_daily_usage (db : DB) (oid : Nat) (d : Int) (src ep : String)
    (reqs toks : Int) : DB :=
  if db.usage_daily.any (fun r => dailyKeyMatch r oid d src ep) then
    { db with usage_daily :=
        db.usage_daily.map fun r =>
          if dailyKeyMatch r oid d src ep then
            { r with request_count := r.request_count + reqs,
                     tokens_used := r.tokens_used + toks }
          else r }
  else
    { db with usage_daily :=
        { organization_id := oid, date := d, source := src, endpoint := ep,
          request_count := reqs, tokens_used := toks } :: db.usage_daily }

/-!
Spec-side formulations of the six rejection checks, written from the
specification's wording ("checks MUST be evaluated in the fixed order
below; first matching reason wins"), to be compared with the embedded
`validate_api_key`.
-/

/-- Spec check 1: no ApiKey row matches the presented hash. -/
def checkInvalidKey (db : DB) (h : String) : Bool :=
  (findKey db h).isNone

/-- Spec check 2: the matched key has `isActive = false`. -/
def checkKeyDisabled (db : DB) (h : String) : Bool :=
  match findKey db h with
  | some k => k.is_active == some false
  | none => false

/-- Spec check 3: the matched key has `expiresAt` set and in the past. -/
def checkKeyExpired (db : DB) (h : String) (now : Int) : Bool :=
  match findKey db h with
  | some k => keyExpired k now
  | none => false

/-- Spec check 4: the owning organization's status is set and not
`active`; yields the blocking status. -/
def checkOrgStatus (db : DB) (h : String) : Option String :=
  match findKey db h with
  | some k => orgStatusBlocked (findOrg db k.organization_id)
  | none => none

/-- Spec check 5: the owning organization's subscription status is not
`active`/`trialing`. -/
def checkSubscription (db : DB) (h : String) : Bool :=
  match findKey db h with
  | some k => subscriptionBlocked (findOrg db k.organization_id)
  | none => false

/-- Spec check 6: the tier's monthly token limit is set and the current
month's cumulative token usage has reached it. -/
def checkQuota (db : DB) (h : String) (ms : Int) : Bool :=
  match findKey db h with
  | some k =>
    match (findTier db ((findOrg db k.organization_id).bind
        Organization.subscription_tier_id)).bind
        SubscriptionTier.monthly_token_limit with
    | some lim => decide (lim ≤ (get_org_monthly_usage db k.organization_id ms).2)
    | none => false
  | none => false

/-- The specification's rejection contract: the reason of the first
matching check in the fixed order, `none` when no check matches. -/
def firstRejectionReason (db : DB) (h : String) (now ms : Int) : Option String :=
  if checkInvalidKey db h then some ("invalid_key")
  else if checkKeyDisabled db h then some ("key_disabled")
  else if checkKeyExpired db h now then some ("key_expired")
  else
    match checkOrgStatus db h with
    | some s => some ("organization_" ++ s)
    | none =>
      if checkSubscription db h then some ("subscription_inactive")
      else if checkQuota db h ms then some ("quota_exceeded")
      else none

/-!
Concrete fixtures (used by witnesses and counterexamples).
-/

/-- Fixture: the free tier, monthly limit 1000 tokens, 10 req/min. -/
def tierFree : SubscriptionTier :=
  { id := "free", monthly_token_limit := some 1000, rate_limit_per_minute := 10 }

/-- Fixture: an active organization on the free tier. -/
def orgAcme : Organization :=
  { id := 1, name := "acme", subscription_tier_id := some ("free"),
    subscription_status := some ("active"), status := some ("active") }

/-- Fixture: an active, unexpired key of `orgAcme`. -/
def keyLive : ApiKey :=
  { id := 7, organization_id := 1, key_hash := "h1",
    rate_limit_override := none, is_active := some true,
    last_used_at := none, expires_at := none }

/-- Fixture: one usage row of 500 tokens in the current month. -/
def usageRow : UsageDaily :=
  { organization_id := 1, date := 10, source := "api", endpoint := "vin",
    request_count := 5, tokens_used := 500 }

/-- Fixture: base database (scenario A of the spec). -/
def dbBase : DB :=
  { api_keys := [keyLive], organizations := [orgAcme],
    subscription_tiers := [tierFree], usage_daily := [usageRow] }

/-- Fixture: a disabled key. -/
def keyOff : ApiKey :=
  { keyLive with id := 8, key_hash := "h2", is_active := some false }

/-- Fixture: database whose only key is disabled. -/
def dbKeyOff : DB := { dbBase with api_keys := [keyOff] }

/-- Fixture: database where the key's organization row is missing
(dangling `organization_id`). -/
def dbNoOrg : DB := { dbBase with organizations := [] }

/-- Fixture: database whose organization has NULL status. -/
def dbNullStatus : DB :=
  { dbBase with organizations := [{ orgAcme with status := none }] }

/-- Fixture: database whose organization is paused. -/
def dbPaused : DB :=
  { dbBase with organizations := [{ orgAcme with status := some ("paused") }] }

/-- Fixture: database whose organization has a NULL subscription tier id,
so the tier row cannot be found. -/
def dbNoTier : DB :=
  { dbBase with organizations := [{ orgAcme with subscription_tier_id := none }] }

/-- Fixture: key with a per-key rate limit override of 500. -/
def keyOverride : ApiKey := { keyLive with rate_limit_override := some 500 }

/-- Fixture: database whose only key carries the 500 req/min override. -/
def dbOverride : DB := { dbBase with api_keys := [keyOverride] }

/-- The success row of `validate_api_key` as a function of the key, the
organization lookup and the tier lookup. -/
def successRow (k : ApiKey) (o : Option Organization)
    (tier : Option SubscriptionTier) : KeyValidation :=
  { api_key_id := some k.id, organization_id := some k.organization_id,
    org_name := o.map Organization.name,
    tier_id := o.bind Organization.subscription_tier_id,
    rate_limit := coalesce k.rate_limit_override
      (tier.map SubscriptionTier.rate_limit_per_minute),
    monthly_limit := tier.bind SubscriptionTier.monthly_token_limit,
    is_valid := true, rejection_reason := none }

/-- The counters of the `usage_daily` row with the given composite key
(`(0, 0)` when the row is absent). -/
def dailyCounters (db : DB) (oid : Nat) (d : Int) (src ep : String) : Int × Int :=
  match db.usage_daily.find? (fun r => dailyKeyMatch r oid d src ep) with
  | some r => (r.request_count, r.tokens_used)
  | none => (0, 0)

/-- `n` successive `increment_daily_usage` calls for the same composite
key, each with `p_requests = 1` and `p_tokens = 1`. -/
def iterIncrement (db : DB) (oid : Nat) (d : Int) (src ep : String) : Nat → DB
  | 0 => db
  | n + 1 => increment_daily_usage (iterIncrement db oid d src ep n) oid d src ep 1 1

/-- Distinctness of the `usage_daily` composite unique key. -/
def distinctDailyKey (r1 r2 : UsageDaily) : Prop :=
  ¬(r1.organization_id = r2.organization_id ∧ r1.date = r2.date
    ∧ r1.source = r2.source ∧ r1.endpoint = r2.endpoint)

/-!
Helper lemmas shared by the claim theorems.
-/

theorem quota_reason_eq (u : Int) (z : Option Int) :
    (match z with
     | some lim => if lim ≤ u then some ("quota_exceeded") else none
     | none => none)
      = (if (match z with
             | some lim => decide (lim ≤ u)
             | none => false) = true then some ("quota_exceeded") else none) := by
  cases z with
  | some lim =>
    by_cases hQ : lim ≤ u
    · simp [hQ]
    · simp [hQ]
  | none => simp

theorem tierPhase_reason (db : DB) (k : ApiKey) (o : Option Organization)
    (tier : Option SubscriptionTier) (now ms : Int) :
    (tierPhase db k o tier now ms).1.rejection_reason =
      (match tier.bind SubscriptionTier.monthly_token_limit with
       | some lim =>
         if lim ≤ (get_org_monthly_usage db k.organization_id ms).2 then
           some ("quota_exceeded")
         else none
       | none => none) := by
  unfold tierPhase
  cases hT : tier.bind SubscriptionTier.monthly_token_limit with
  | some lim =>
    by_cases hQ : lim ≤ (get_org_monthly_usage db k.organization_id ms).2
    · simp [hQ]
    · simp [hQ]
  | none => rfl

theorem tierPhase_valid (db : DB) (k : ApiKey) (o : Option Organization)
    (tier : Option SubscriptionTier) (now ms : Int) :
    (tierPhase db k o tier now ms).1.is_valid = true ↔
      (tierPhase db k o tier now ms).1.rejection_reason = none := by
  unfold tierPhase
  cases hT : tier.bind SubscriptionTier.monthly_token_limit with
  | some lim =>
    by_cases hQ : lim ≤ (get_org_monthly_usage db k.organization_id ms).2
    · simp [hQ]
    · simp [hQ]
  | none => simp

theorem validate_reason_eq (db : DB) (h : String) (now ms : Int) :
    (validate_api_key db h now ms).1.rejection_reason
      = firstRejectionReason db h now ms := by
  unfold validate_api_key keyPhase firstRejectionReason checkInvalidKey checkKeyDisabled
    checkKeyExpired checkOrgStatus checkSubscription checkQuota
  cases hf : findKey db h with
  | none => simp [hf]
  | some k =>
    simp only [hf, Option.isNone_some, if_neg, Bool.false_eq_true, not_false_eq_true]
    by_cases hA : k.is_active = some false
    · simp [hA]
    · simp only [hA, if_neg, beq_iff_eq, if_false]
      by_cases hE : keyExpired k now = true
      · simp [hE]
      · simp only [hE, if_neg, Bool.false_eq_true, not_false_eq_true, if_false]
        unfold orgPhase
        cases ho : orgStatusBlocked (findOrg db k.organization_id) with
        | some s => simp [ho]
        | none =>
          simp only [ho]
          by_cases hS : subscriptionBlocked (findOrg db k.organization_id) = true
          · simp [hS]
          · simp only [hS, Bool.false_eq_true, not_false_eq_true, if_false]
            rw [tierPhase_reason]
            exact quota_reason_eq _ _

theorem validate_valid_iff (db : DB) (h : String) (now ms : Int) :
    (validate_api_key db h now ms).1.is_valid = true ↔
      (validate_api_key db h now ms).1.rejection_reason = none := by
  unfold validate_api_key keyPhase
  cases hf : findKey db h with
  | none => simp
  | some k =>
    by_cases hA : k.is_active = some false
    · simp [hA]
    · simp only [hA, if_false]
      by_cases hE : keyExpired k now = true
      · simp [hE]
      · simp only [hE, Bool.false_eq_true, not_false_eq_true, if_false]
        unfold orgPhase
        cases ho : orgStatusBlocked (findOrg db k.organization_id) with
        | some s => simp [ho]
        | none =>
          simp only [ho]
          by_cases hS : subscriptionBlocked (findOrg db k.organization_id) = true
          · simp [hS]
          · simp only [hS, Bool.false_eq_true, not_false_eq_true, if_false]
            exact tierPhase_valid db k _ _ now ms

/-- C1: `validate_api_key` evaluates its rejection checks in the fixed
order invalid_key, key_disabled, key_expired, organization_{status},
subscription_inactive, quota_exceeded: its rejection reason always equals
the reason of the first matching spec check (`firstRejectionReason`), it
allows exactly when no check matches, and in particular a key with
`is_active = false` always yields `key_disabled`. -/
theorem validate_first_matching_reason (db : DB) (h : String) (now ms : Int) :
    (validate_api_key db h now ms).1.rejection_reason
        = firstRejectionReason db h now ms
    ∧ ((validate_api_key db h now ms).1.is_valid = true ↔
        firstRejectionReason db h now ms = none)
    ∧ (∀ k, findKey db h = some k → k.is_active = some false →
        (validate_api_key db h now ms).1.rejection_reason = some ("key_disabled")) := by
  refine ⟨validate_reason_eq db h now ms, ?_, ?_⟩
  · rw [← validate_reason_eq]
    exact validate_valid_iff db h now ms
  · intro k hk hA
    rw [validate_reason_eq]
    unfold firstRejectionReason checkInvalidKey checkKeyDisabled
    simp [hk, hA]

/-- C1 witness: on a concrete database whose only key is disabled, the
theorem yields the `key_disabled` reason. -/
theorem validate_first_matching_reason_witness :
    (validate_api_key dbKeyOff ("h2") 100 0).1.rejection_reason
      = some ("key_disabled") :=
  (validate_first_matching_reason dbKeyOff ("h2") 100 0).2.2 keyOff
    (by decide) (by decide)

theorem tierPhase_success (db : DB) (k : ApiKey) (o : Option Organization)
    (tier : Option SubscriptionTier) (now ms : Int) :
    (tierPhase db k o tier now ms).1.is_valid = true →
    tierPhase db k o tier now ms = (successRow k o tier, touchKey db k.id now) := by
  unfold tierPhase successRow
  cases hT : tier.bind SubscriptionTier.monthly_token_limit with
  | some lim =>
    by_cases hQ : lim ≤ (get_org_monthly_usage db k.organization_id ms).2
    · simp [hQ]
    · simp [hQ, hT]
  | none => simp [hT]

theorem validate_valid_result (db : DB) (h : String) (now ms : Int) :
    (validate_api_key db h now ms).1.is_valid = true →
    ∃ k, findKey db h = some k
      ∧ validate_api_key db h now ms
          = (successRow k (findOrg db k.organization_id)
               (findTier db ((findOrg db k.organization_id).bind
                  Organization.subscription_tier_id)),
             touchKey db k.id now) := by
  unfold validate_api_key keyPhase
  cases hf : findKey db h with
  | none => simp
  | some k =>
    by_cases hA : k.is_active = some false
    · simp [hA]
    · simp only [hA, if_false]
      by_cases hE : keyExpired k now = true
      · simp [hE]
      · simp only [hE, Bool.false_eq_true, not_false_eq_true, if_false]
        unfold orgPhase
        cases ho : orgStatusBlocked (findOrg db k.organization_id) with
        | some s => simp [ho]
        | none =>
          simp only [ho]
          by_cases hS : subscriptionBlocked (findOrg db k.organization_id) = true
          · simp [hS]
          · simp only [hS, Bool.false_eq_true, not_false_eq_true, if_false]
            intro hv
            exact ⟨k, rfl, tierPhase_success db k _ _ now ms hv⟩

theorem firstRejectionReason_none_inv (db : DB) (h : String) (now ms : Int) :
    firstRejectionReason db h now ms = none →
    checkInvalidKey db h = false ∧ checkKeyDisabled db h = false
    ∧ checkKeyExpired db h now = false ∧ checkOrgStatus db h = none
    ∧ checkSubscription db h = false ∧ checkQuota db h ms = false := by
  unfold firstRejectionReason
  by_cases h1 : checkInvalidKey db h = true
  · simp [h1]
  · simp only [h1, Bool.false_eq_true, not_false_eq_true, if_false]
    by_cases h2 : checkKeyDisabled db h = true
    · simp [h2]
    · simp only [h2, Bool.false_eq_true, not_false_eq_true, if_false]
      by_cases h3 : checkKeyExpired db h now = true
      · simp [h3]
      · simp only [h3, Bool.false_eq_true, not_false_eq_true, if_false]
        cases h4 : checkOrgStatus db h with
        | some s => simp [h4]
        | none =>
          simp only [h4]
          by_cases h5 : checkSubscription db h = true
          · simp [h5]
          · simp only [h5, Bool.false_eq_true, not_false_eq_true, if_false]
            by_cases h6 : checkQuota db h ms = true
            · simp [h6]
            · intro _
              exact ⟨by simpa using h1, by simpa using h2, by simpa using h3,
                trivial, by simpa using h5, by simpa using h6⟩

/-- C2 (code-bug evidence): for a key row that exists, is active and
unexpired but whose organization row (resp. subscription-tier row) cannot
be found, `validate_api_key` returns Allowed (`is_valid = true`) instead
of failing closed with `invalid_key`: the plpgsql `SELECT INTO` leaves the
missing record NULL and every NULL-guarded check passes. -/
theorem validate_dangling_reference_allows :
    (findKey dbNoOrg ("h1") = some keyLive
      ∧ keyLive.is_active = some true ∧ keyExpired keyLive 100 = false
      ∧ findOrg dbNoOrg keyLive.organization_id = none
      ∧ (validate_api_key dbNoOrg ("h1") 100 0).1.is_valid = true
      ∧ (validate_api_key dbNoOrg ("h1") 100 0).1.rejection_reason ≠ some ("invalid_key"))
    ∧ (findTier dbNoTier ((findOrg dbNoTier keyLive.organization_id).bind
          Organization.subscription_tier_id) = none
      ∧ (validate_api_key dbNoTier ("h1") 100 0).1.is_valid = true
      ∧ (validate_api_key dbNoTier ("h1") 100 0).1.rejection_reason ≠ some ("invalid_key")) := by
  decide

/-- C3: a key owned by an organization whose status is set and not
`active`, or whose subscription status is set and outside
{active, trialing}, is never Allowed; when the key itself is active and
unexpired the reason is `organization_{status}`, and (when the
organization-status check passes) `subscription_inactive` respectively. -/
theorem org_state_blocks (db : DB) (h : String) (now ms : Int)
    (k : ApiKey) (o : Organization)
    (hk : findKey db h = some k)
    (ho : findOrg db k.organization_id = some o) :
    (∀ s, ((o.status = some s ∧ s ≠ "active")
        ∨ (o.subscription_status = some s ∧ s ≠ "active" ∧ s ≠ "trialing")) →
      (validate_api_key db h now ms).1.is_valid = false)
    ∧ (¬k.is_active = some false → keyExpired k now = false →
        ∀ s, o.status = some s → s ≠ "active" →
        (validate_api_key db h now ms).1.rejection_reason
          = some ("organization_" ++ s))
    ∧ (¬k.is_active = some false → keyExpired k now = false →
        orgStatusBlocked (some o) = none →
        ∀ ss, o.subscription_status = some ss → ss ≠ "active" → ss ≠ "trialing" →
        (validate_api_key db h now ms).1.rejection_reason
          = some ("subscription_inactive")) := by
  refine ⟨?_, ?_, ?_⟩
  · intro s hdisj
    cases hvb : (validate_api_key db h now ms).1.is_valid with
    | false => rfl
    | true =>
      exfalso
      have hnone : firstRejectionReason db h now ms = none := by
        rw [← validate_reason_eq]
        exact (validate_valid_iff db h now ms).1 hvb
      obtain ⟨-, -, -, h4, h5, -⟩ := firstRejectionReason_none_inv db h now ms hnone
      rcases hdisj with ⟨hst, hsne⟩ | ⟨hsub, hne1, hne2⟩
      · simp only [checkOrgStatus, hk, ho, orgStatusBlocked, Option.some_bind, hst] at h4
        simp only [ite_eq_left_iff] at h4
        exact hsne (by by_contra hne; exact Option.some_ne_none s (h4 hne))
      · simp only [checkSubscription, hk, ho, subscriptionBlocked, Option.some_bind,
          hsub] at h5
        simp [hne1, hne2] at h5
  · intro hA hE s hst hsne
    rw [validate_reason_eq]
    have h1 : checkInvalidKey db h = false := by simp [checkInvalidKey, hk]
    have h2 : checkKeyDisabled db h = false := by simp [checkKeyDisabled, hk, hA]
    have h3 : checkKeyExpired db h now = false := by simp [checkKeyExpired, hk, hE]
    have h4 : checkOrgStatus db h = some s := by
      simp [checkOrgStatus, hk, ho, orgStatusBlocked, hst, hsne]
    unfold firstRejectionReason
    simp [h1, h2, h3, h4]
  · intro hA hE hOB ss hsub hne1 hne2
    rw [validate_reason_eq]
    have h1 : checkInvalidKey db h = false := by simp [checkInvalidKey, hk]
    have h2 : checkKeyDisabled db h = false := by simp [checkKeyDisabled, hk, hA]
    have h3 : checkKeyExpired db h now = false := by simp [checkKeyExpired, hk, hE]
    have h4 : checkOrgStatus db h = none := by simp [checkOrgStatus, hk, ho, hOB]
    have h5 : checkSubscription db h = true := by
      simp [checkSubscription, hk, ho, subscriptionBlocked, hsub, hne1, hne2]
    unfold firstRejectionReason
    simp [h1, h2, h3, h4, h5]

theorem org_state_blocks_witness :
    (validate_api_key dbPaused ("h1") 100 0).1.rejection_reason
      = some ("organization_" ++ "paused") :=
  (org_state_blocks dbPaused ("h1") 100 0 keyLive
      { orgAcme with status := some ("paused") } (by decide) (by decide)).2.1
    (by decide) (by decide) "paused" (by decide) (by decide)

theorem quota_if_iff (u : Int) (z : Option Int) :
    ((if (match z with
          | some lim => decide (lim ≤ u)
          | none => false) = true then some ("quota_exceeded") else none)
        = some ("quota_exceeded"))
      ↔ ∃ lim, z = some lim ∧ lim ≤ u := by
  cases z with
  | some lim =>
    by_cases hQ : lim ≤ u
    · simp [hQ]
    · simp [hQ]
  | none => simp

/-- C4: past checks 1-5, the result is `quota_exceeded` exactly when the
tier monthly token limit is set and the current-month token total has
reached it; an absent limit never rejects, and strictly below the limit
the key is Allowed. -/
theorem quota_boundary (db : DB) (h : String) (now ms : Int) (k : ApiKey)
    (hk : findKey db h = some k)
    (hA : ¬k.is_active = some false) (hE : keyExpired k now = false)
    (hO : orgStatusBlocked (findOrg db k.organization_id) = none)
    (hS : subscriptionBlocked (findOrg db k.organization_id) = false) :
    ((validate_api_key db h now ms).1.rejection_reason = some ("quota_exceeded") ↔
      ∃ lim, (findTier db ((findOrg db k.organization_id).bind
          Organization.subscription_tier_id)).bind
          SubscriptionTier.monthly_token_limit = some lim
        ∧ lim ≤ (get_org_monthly_usage db k.organization_id ms).2)
    ∧ ((findTier db ((findOrg db k.organization_id).bind
          Organization.subscription_tier_id)).bind
          SubscriptionTier.monthly_token_limit = none →
        (validate_api_key db h now ms).1.is_valid = true)
    ∧ (∀ lim, (findTier db ((findOrg db k.organization_id).bind
          Organization.subscription_tier_id)).bind
          SubscriptionTier.monthly_token_limit = some lim →
        (get_org_monthly_usage db k.organization_id ms).2 < lim →
        (validate_api_key db h now ms).1.is_valid = true) := by
  have h1 : checkInvalidKey db h = false := by simp [checkInvalidKey, hk]
  have h2 : checkKeyDisabled db h = false := by simp [checkKeyDisabled, hk, hA]
  have h3 : checkKeyExpired db h now = false := by simp [checkKeyExpired, hk, hE]
  have h4 : checkOrgStatus db h = none := by simp [checkOrgStatus, hk, hO]
  have h5 : checkSubscription db h = false := by simp [checkSubscription, hk, hS]
  have hfr : firstRejectionReason db h now ms
      = (if checkQuota db h ms then some ("quota_exceeded") else none) := by
    unfold firstRejectionReason
    simp [h1, h2, h3, h4, h5]
  refine ⟨?_, ?_, ?_⟩
  · rw [validate_reason_eq, hfr]
    have hcq : checkQuota db h ms
        = (match (findTier db ((findOrg db k.organization_id).bind
            Organization.subscription_tier_id)).bind
            SubscriptionTier.monthly_token_limit with
           | some lim =>
             decide (lim ≤ (get_org_monthly_usage db k.organization_id ms).2)
           | none => false) := by
      unfold checkQuota
      rw [hk]
    rw [hcq]
    exact quota_if_iff _ _
  · intro hT
    rw [validate_valid_iff, validate_reason_eq, hfr]
    have : checkQuota db h ms = false := by
      simp only [checkQuota, hk]
      rw [hT]
    simp [this]
  · intro lim hT hlt
    rw [validate_valid_iff, validate_reason_eq, hfr]
    have : checkQuota db h ms = false := by
      simp only [checkQuota, hk]
      rw [hT]
      simp [not_le.2 hlt]
    simp [this]

theorem quota_boundary_witness :
    (validate_api_key dbBase ("h1") 100 0).1.is_valid = true :=
  (quota_boundary dbBase ("h1") 100 0 keyLive (by decide) (by decide)
      (by decide) (by decide) (by decide)).2.2 1000 (by decide) (by decide)

/-- C5: whenever `validate_api_key` returns Allowed, the returned
`rate_limit` is the key override when present and otherwise the tier
default, and the returned `monthly_limit` is the tier monthly token
limit. -/
theorem allowed_limits (db : DB) (h : String) (now ms : Int)
    (k : ApiKey) (o : Organization) (tid : String) (tier : SubscriptionTier)
    (hk : findKey db h = some k)
    (ho : findOrg db k.organization_id = some o)
    (htid : o.subscription_tier_id = some tid)
    (htier : findTier db (some tid) = some tier)
    (hv : (validate_api_key db h now ms).1.is_valid = true) :
    (validate_api_key db h now ms).1.rate_limit
        = some (k.rate_limit_override.getD tier.rate_limit_per_minute)
    ∧ (validate_api_key db h now ms).1.monthly_limit = tier.monthly_token_limit := by
  obtain ⟨k2, hk2, heq⟩ := validate_valid_result db h now ms hv
  rw [hk] at hk2
  injection hk2 with hk2e
  subst hk2e
  rw [heq]
  unfold successRow
  rw [ho]
  simp only [Option.some_bind, Option.map_some, htid, htier]
  constructor
  · cases hro : k.rate_limit_override with
    | some r => simp [coalesce, hro]
    | none => simp [coalesce, hro]
  · simp

theorem allowed_limits_witness :
    (validate_api_key dbOverride ("h1") 100 0).1.rate_limit = some 500
    ∧ (validate_api_key dbOverride ("h1") 100 0).1.monthly_limit = some 1000 :=
  allowed_limits dbOverride ("h1") 100 0 keyOverride orgAcme ("free") tierFree
    (by decide) (by decide) (by decide) (by decide) (by decide)

theorem find?_map_pres {α : Type} (f : α → α) (p : α → Bool)
    (hp : ∀ a, p (f a) = p a) (l : List α) :
    (l.map f).find? p = (l.find? p).map f := by
  induction l with
  | nil => rfl
  | cons a t ih =>
    simp only [List.map_cons]
    by_cases hpa : p a = true
    · rw [List.find?_cons_of_pos _ (by rw [hp]; exact hpa),
        List.find?_cons_of_pos _ hpa]
      rfl
    · rw [List.find?_cons_of_neg _ (by rw [hp]; simpa using hpa),
        List.find?_cons_of_neg _ (by simpa using hpa), ih]

theorem touchKey_organizations (db : DB) (kid : Nat) (t : Int) :
    (touchKey db kid t).organizations = db.organizations := rfl

theorem touchKey_tiers (db : DB) (kid : Nat) (t : Int) :
    (touchKey db kid t).subscription_tiers = db.subscription_tiers := rfl

theorem touchKey_usage (db : DB) (kid : Nat) (t : Int) :
    (touchKey db kid t).usage_daily = db.usage_daily := rfl

theorem findKey_touchKey (db : DB) (kid : Nat) (t : Int) (h : String) :
    findKey (touchKey db kid t) h
      = (findKey db h).map
          (fun k => if k.id = kid then { k with last_used_at := some t } else k) := by
  unfold findKey touchKey
  exact find?_map_pres _ _
    (fun a => by by_cases hc : a.id = kid <;> simp [hc]) db.api_keys

theorem findTier_congr (db db2 : DB)
    (ht : db2.subscription_tiers = db.subscription_tiers) (tid : Option String) :
    findTier db2 tid = findTier db tid := by
  unfold findTier
  cases tid with
  | some t => rw [ht]
  | none => rfl

theorem get_org_monthly_usage_congr (db db2 : DB)
    (hu : db2.usage_daily = db.usage_daily) (oid : Nat) (ms : Int) :
    get_org_monthly_usage db2 oid ms = get_org_monthly_usage db oid ms := by
  unfold get_org_monthly_usage
  rw [hu]

theorem tierPhase_result_eq (db db2 : DB) (k k2 : ApiKey)
    (o : Option Organization) (tier : Option SubscriptionTier)
    (now now2 ms : Int)
    (hid : k2.id = k.id) (horg : k2.organization_id = k.organization_id)
    (hro : k2.rate_limit_override = k.rate_limit_override)
    (hu : db2.usage_daily = db.usage_daily) :
    (tierPhase db2 k2 o tier now2 ms).1 = (tierPhase db k o tier now ms).1 := by
  unfold tierPhase
  cases hT : tier.bind SubscriptionTier.monthly_token_limit with
  | some lim =>
    rw [get_org_monthly_usage_congr db db2 hu, horg]
    by_cases hQ : lim ≤ (get_org_monthly_usage db k.organization_id ms).2
    · simp [hQ, hid, horg, hro]
    · simp [hQ, hid, horg, hro]
  | none => simp [hid, horg, hro]

theorem orgPhase_result_eq (db db2 : DB) (k k2 : ApiKey)
    (o : Option Organization) (now now2 ms : Int)
    (hid : k2.id = k.id) (horg : k2.organization_id = k.organization_id)
    (hro : k2.rate_limit_override = k.rate_limit_override)
    (hu : db2.usage_daily = db.usage_daily)
    (ht : db2.subscription_tiers = db.subscription_tiers) :
    (orgPhase db2 k2 o now2 ms).1 = (orgPhase db k o now ms).1 := by
  unfold orgPhase
  cases ho : orgStatusBlocked o with
  | some s => simp [hid, horg]
  | none =>
    by_cases hS : subscriptionBlocked o = true
    · simp [hS, hid, horg]
    · simp only [hS, Bool.false_eq_true, not_false_eq_true, if_false]
      rw [findTier_congr db db2 ht]
      exact tierPhase_result_eq db db2 k k2 o _ now now2 ms hid horg hro hu

theorem keyPhase_result_eq (db db2 : DB) (k k2 : ApiKey) (now ms : Int)
    (hid : k2.id = k.id) (horg : k2.organization_id = k.organization_id)
    (hro : k2.rate_limit_override = k.rate_limit_override)
    (hact : k2.is_active = k.is_active) (hexp : k2.expires_at = k.expires_at)
    (ho : db2.organizations = db.organizations)
    (hu : db2.usage_daily = db.usage_daily)
    (ht : db2.subscription_tiers = db.subscription_tiers) :
    (keyPhase db2 k2 now ms).1 = (keyPhase db k now ms).1 := by
  unfold keyPhase
  have hkexp : keyExpired k2 now = keyExpired k now := by
    unfold keyExpired
    rw [hexp]
  have hfo : findOrg db2 k2.organization_id = findOrg db k.organization_id := by
    unfold findOrg
    rw [ho, horg]
  rw [hact, hkexp, hfo]
  by_cases hA : k.is_active = some false
  · simp [hA, hid, horg]
  · simp only [hA, if_false]
    by_cases hE : keyExpired k now = true
    · simp [hE, hid, horg]
    · simp only [hE, Bool.false_eq_true, not_false_eq_true, if_false]
      exact orgPhase_result_eq db db2 k k2 _ now now ms hid horg hro hu ht

theorem validate_result_touchKey (db : DB) (kid : Nat) (t : Int)
    (h : String) (now2 ms : Int) :
    (validate_api_key (touchKey db kid t) h now2 ms).1
      = (validate_api_key db h now2 ms).1 := by
  unfold validate_api_key
  cases hf : findKey db h with
  | none =>
    have hf2 : findKey (touchKey db kid t) h = none := by
      rw [findKey_touchKey, hf]
      rfl
    simp only [hf2]
  | some k =>
    have hf2 : findKey (touchKey db kid t) h
        = some (if k.id = kid then { k with last_used_at := some t } else k) := by
      rw [findKey_touchKey, hf]
      rfl
    simp only [hf2]
    exact keyPhase_result_eq db (touchKey db kid t) k _ now2 ms
      (by by_cases hc : k.id = kid <;> simp [hc])
      (by by_cases hc : k.id = kid <;> simp [hc])
      (by by_cases hc : k.id = kid <;> simp [hc])
      (by by_cases hc : k.id = kid <;> simp [hc])
      (by by_cases hc : k.id = kid <;> simp [hc])
      rfl rfl rfl

theorem validate_invalid_state (db : DB) (h : String) (now ms : Int) :
    (validate_api_key db h now ms).1.is_valid = false →
    (validate_api_key db h now ms).2 = db := by
  unfold validate_api_key keyPhase
  cases hf : findKey db h with
  | none => intro _; rfl
  | some k =>
    by_cases hA : k.is_active = some false
    · simp [hA]
    · simp only [hA, if_false]
      by_cases hE : keyExpired k now = true
      · simp [hE]
      · simp only [hE, Bool.false_eq_true, not_false_eq_true, if_false]
        unfold orgPhase
        cases ho : orgStatusBlocked (findOrg db k.organization_id) with
        | some s => simp
        | none =>
          by_cases hS : subscriptionBlocked (findOrg db k.organization_id) = true
          · simp [hS]
          · simp only [hS, Bool.false_eq_true, not_false_eq_true, if_false]
            unfold tierPhase
            cases hT : (findTier db ((findOrg db k.organization_id).bind
                Organization.subscription_tier_id)).bind
                SubscriptionTier.monthly_token_limit with
            | some lim =>
              by_cases hQ : lim ≤ (get_org_monthly_usage db k.organization_id ms).2
              · simp [hQ]
              · simp [hQ]
            | none => simp

theorem dailyKeyMatch_update (r : UsageDaily) (oid : Nat) (d : Int)
    (src ep : String) (a b : Int) (oid2 : Nat) (d2 : Int) (s2 e2 : String) :
    dailyKeyMatch (if dailyKeyMatch r oid d src ep then
        { r with request_count := r.request_count + a,
                 tokens_used := r.tokens_used + b }
      else r) oid2 d2 s2 e2 = dailyKeyMatch r oid2 d2 s2 e2 := by
  by_cases hc : dailyKeyMatch r oid d src ep = true
  · rw [if_pos hc]
    simp [dailyKeyMatch]
  · rw [if_neg hc]

theorem dailyKeyMatch_self (oid : Nat) (d : Int) (src ep : String) (a b : Int) :
    dailyKeyMatch
        { organization_id := oid, date := d, source := src,
          endpoint := ep, request_count := a, tokens_used := b }
        oid d src ep = true := by
  simp [dailyKeyMatch]

theorem dailyKeyMatch_unique (r : UsageDaily) (oid : Nat) (d : Int)
    (src ep : String) (oid2 : Nat) (d2 : Int) (s2 e2 : String)
    (hne : ¬(oid2 = oid ∧ d2 = d ∧ s2 = src ∧ e2 = ep)) :
    dailyKeyMatch r oid d src ep = true →
    dailyKeyMatch r oid2 d2 s2 e2 = false := by
  unfold dailyKeyMatch
  intro h1
  simp only [Bool.and_eq_true, beq_iff_eq] at h1
  obtain ⟨⟨⟨e1, e2'⟩, e3⟩, e4⟩ := h1
  by_contra hb
  simp only [Bool.not_eq_false, Bool.and_eq_true, beq_iff_eq] at hb
  obtain ⟨⟨⟨f1, f2⟩, f3⟩, f4⟩ := hb
  exact hne ⟨by rw [← f1, e1], by rw [← f2, e2'], by rw [← f3, e3], by rw [← f4, e4]⟩

theorem increment_counters (db : DB) (oid : Nat) (d : Int) (src ep : String)
    (reqs toks : Int) :
    dailyCounters (increment_daily_usage db oid d src ep reqs toks) oid d src ep
      = ((dailyCounters db oid d src ep).1 + reqs,
         (dailyCounters db oid d src ep).2 + toks) := by
  unfold increment_daily_usage dailyCounters
  by_cases hany : db.usage_daily.any (fun r => dailyKeyMatch r oid d src ep) = true
  · simp only [hany, if_true]
    rw [find?_map_pres _ _ (fun r => dailyKeyMatch_update r oid d src ep reqs toks oid d src ep)]
    have hsome : (db.usage_daily.find? (fun r => dailyKeyMatch r oid d src ep)).isSome := by
      rw [List.find?_isSome]
      exact List.any_eq_true.1 hany
    cases hfind : db.usage_daily.find? (fun r => dailyKeyMatch r oid d src ep) with
    | none => rw [hfind] at hsome; simp at hsome
    | some r0 =>
      have hp0 := List.find?_some hfind
      simp [hp0]
  · simp only [hany, Bool.false_eq_true, not_false_eq_true, if_false, if_neg]
    have hnone : db.usage_daily.find? (fun r => dailyKeyMatch r oid d src ep) = none := by
      rw [List.find?_eq_none]
      intro x hx hpx
      exact hany (List.any_eq_true.2 ⟨x, hx, hpx⟩)
    rw [List.find?_cons_of_pos (p := fun r => dailyKeyMatch r oid d src ep) _
      (dailyKeyMatch_self oid d src ep reqs toks), hnone]
    simp

theorem increment_counters_other (db : DB) (oid : Nat) (d : Int)
    (src ep : String) (reqs toks : Int) (oid2 : Nat) (d2 : Int) (s2 e2 : String)
    (hne : ¬(oid2 = oid ∧ d2 = d ∧ s2 = src ∧ e2 = ep)) :
    dailyCounters (increment_daily_usage db oid d src ep reqs toks) oid2 d2 s2 e2
      = dailyCounters db oid2 d2 s2 e2 := by
  unfold increment_daily_usage dailyCounters
  by_cases hany : db.usage_daily.any (fun r => dailyKeyMatch r oid d src ep) = true
  · simp only [hany, if_true]
    rw [find?_map_pres _ _ (fun r => dailyKeyMatch_update r oid d src ep reqs toks oid2 d2 s2 e2)]
    cases hfind : db.usage_daily.find? (fun r => dailyKeyMatch r oid2 d2 s2 e2) with
    | none => rfl
    | some r0 =>
      have hp0 := List.find?_some hfind
      have hnot : dailyKeyMatch r0 oid d src ep = false := by
        by_contra hb
        simp only [Bool.not_eq_false] at hb
        have := dailyKeyMatch_unique r0 oid d src ep oid2 d2 s2 e2 hne hb
        rw [hp0] at this
        cases this
      simp [hnot]
  · simp only [hany, Bool.false_eq_true, not_false_eq_true, if_false, if_neg]
    have hnewnot : dailyKeyMatch
        { organization_id := oid, date := d, source := src,
          endpoint := ep, request_count := reqs, tokens_used := toks }
        oid2 d2 s2 e2 = false := by
      apply dailyKeyMatch_unique _ oid d src ep oid2 d2 s2 e2 hne
      exact dailyKeyMatch_self oid d src ep reqs toks
    rw [List.find?_cons_of_neg (p := fun r => dailyKeyMatch r oid2 d2 s2 e2) _
      (by simp [hnewnot])]

theorem increment_other_rows (db : DB) (oid : Nat) (d : Int)
    (src ep : String) (reqs toks : Int) :
    (increment_daily_usage db oid d src ep reqs toks).usage_daily.filter
        (fun r => !(dailyKeyMatch r oid d src ep))
      = db.usage_daily.filter (fun r => !(dailyKeyMatch r oid d src ep))
    ∧ (increment_daily_usage db oid d src ep reqs toks).api_keys = db.api_keys
    ∧ (increment_daily_usage db oid d src ep reqs toks).organizations
        = db.organizations
    ∧ (increment_daily_usage db oid d src ep reqs toks).subscription_tiers
        = db.subscription_tiers := by
  refine ⟨?_, ?_, ?_, ?_⟩
  · unfold increment_daily_usage
    by_cases hany : db.usage_daily.any (fun r => dailyKeyMatch r oid d src ep) = true
    · simp only [hany, if_true]
      induction db.usage_daily with
      | nil => rfl
      | cons a t ih =>
        simp only [List.map_cons]
        by_cases hpa : dailyKeyMatch a oid d src ep = true
        · have hua := dailyKeyMatch_update a oid d src ep reqs toks oid d src ep
          rw [if_pos hpa] at hua
          rw [if_pos hpa, List.filter_cons_of_neg (by simp [hua, hpa]),
            List.filter_cons_of_neg (by simp [hpa]), ih]
        · rw [if_neg hpa, List.filter_cons_of_pos (by simp [hpa]),
            List.filter_cons_of_pos (by simp [hpa]), ih]
    · simp only [hany, Bool.false_eq_true, not_false_eq_true, if_false, if_neg]
      rw [List.filter_cons_of_neg (by simp [dailyKeyMatch_self])]
  · unfold increment_daily_usage
    by_cases hany : db.usage_daily.any (fun r => dailyKeyMatch r oid d src ep) = true
    · simp [hany]
    · simp [hany]
  · unfold increment_daily_usage
    by_cases hany : db.usage_daily.any (fun r => dailyKeyMatch r oid d src ep) = true
    · simp [hany]
    · simp [hany]
  · unfold increment_daily_usage
    by_cases hany : db.usage_daily.any (fun r => dailyKeyMatch r oid d src ep) = true
    · simp [hany]
    · simp [hany]

theorem update_keeps_key (r : UsageDaily) (oid : Nat) (d : Int)
    (src ep : String) (reqs toks : Int) :
    (if dailyKeyMatch r oid d src ep then
        { r with request_count := r.request_count + reqs,
                 tokens_used := r.tokens_used + toks }
      else r).organization_id = r.organization_id
    ∧ (if dailyKeyMatch r oid d src ep then
        { r with request_count := r.request_count + reqs,
                 tokens_used := r.tokens_used + toks }
      else r).date = r.date
    ∧ (if dailyKeyMatch r oid d src ep then
        { r with request_count := r.request_count + reqs,
                 tokens_used := r.tokens_used + toks }
      else r).source = r.source
    ∧ (if dailyKeyMatch r oid d src ep then
        { r with request_count := r.request_count + reqs,
                 tokens_used := r.tokens_used + toks }
      else r).endpoint = r.endpoint := by
  by_cases hc : dailyKeyMatch r oid d src ep = true
  · simp [hc]
  · simp [hc]

theorem increment_pairwise (db : DB) (oid : Nat) (d : Int)
    (src ep : String) (reqs toks : Int)
    (hpw : List.Pairwise distinctDailyKey db.usage_daily) :
    List.Pairwise distinctDailyKey
      (increment_daily_usage db oid d src ep reqs toks).usage_daily := by
  unfold increment_daily_usage
  by_cases hany : db.usage_daily.any (fun r => dailyKeyMatch r oid d src ep) = true
  · simp only [hany, if_true]
    rw [List.pairwise_map]
    apply hpw.imp
    intro a b hab
    obtain ⟨fa1, fa2, fa3, fa4⟩ := update_keeps_key a oid d src ep reqs toks
    obtain ⟨fb1, fb2, fb3, fb4⟩ := update_keeps_key b oid d src ep reqs toks
    unfold distinctDailyKey at hab ⊢
    intro hcon
    exact hab ⟨by rw [← fa1, ← fb1]; exact hcon.1,
      by rw [← fa2, ← fb2]; exact hcon.2.1,
      by rw [← fa3, ← fb3]; exact hcon.2.2.1,
      by rw [← fa4, ← fb4]; exact hcon.2.2.2⟩
  · simp only [hany, Bool.false_eq_true, not_false_eq_true, if_false, if_neg]
    rw [List.pairwise_cons]
    refine ⟨?_, hpw⟩
    intro b hb
    unfold distinctDailyKey
    intro hcon
    apply hany
    rw [List.any_eq_true]
    refine ⟨b, hb, ?_⟩
    unfold dailyKeyMatch
    simp only [Bool.and_eq_true, beq_iff_eq]
    exact ⟨⟨⟨(hcon.1).symm, (hcon.2.1).symm⟩, (hcon.2.2.1).symm⟩, (hcon.2.2.2).symm⟩

theorem match_fields (r : UsageDaily) (oid : Nat) (d : Int) (src ep : String)
    (h : dailyKeyMatch r oid d src ep = true) :
    r.organization_id = oid ∧ r.date = d ∧ r.source = src ∧ r.endpoint = ep := by
  unfold dailyKeyMatch at h
  simp only [Bool.and_eq_true, beq_iff_eq] at h
  exact ⟨h.1.1.1, h.1.1.2, h.1.2, h.2⟩

theorem count_le_one (l : List UsageDaily) (oid : Nat) (d : Int)
    (src ep : String) (hpw : List.Pairwise distinctDailyKey l) :
    (l.filter (fun r => dailyKeyMatch r oid d src ep)).length ≤ 1 := by
  induction l with
  | nil => simp
  | cons a t ih =>
    rw [List.pairwise_cons] at hpw
    by_cases hpa : dailyKeyMatch a oid d src ep = true
    · rw [List.filter_cons_of_pos (p := fun r => dailyKeyMatch r oid d src ep) hpa]
      have hnil : t.filter (fun r => dailyKeyMatch r oid d src ep) = [] := by
        rw [List.filter_eq_nil_iff]
        intro x hx hpx
        have hd := hpw.1 x hx
        obtain ⟨a1, a2, a3, a4⟩ := match_fields a oid d src ep hpa
        obtain ⟨x1, x2, x3, x4⟩ := match_fields x oid d src ep hpx
        exact hd ⟨by rw [a1, x1], by rw [a2, x2], by rw [a3, x3], by rw [a4, x4]⟩
      rw [hnil]
      simp
    · rw [List.filter_cons_of_neg (by simp [hpa])]
      exact ih hpw.2

theorem increment_count_one (db : DB) (oid : Nat) (d : Int)
    (src ep : String) (reqs toks : Int)
    (hpw : List.Pairwise distinctDailyKey db.usage_daily) :
    ((increment_daily_usage db oid d src ep reqs toks).usage_daily.filter
      (fun r => dailyKeyMatch r oid d src ep)).length = 1 := by
  unfold increment_daily_usage
  by_cases hany : db.usage_daily.any (fun r => dailyKeyMatch r oid d src ep) = true
  · simp only [hany, if_true]
    rw [List.filter_map]
    simp only [Function.comp_def]
    rw [List.filter_congr
      (fun x _ => dailyKeyMatch_update x oid d src ep reqs toks oid d src ep),
      List.length_map]
    have hle := count_le_one db.usage_daily oid d src ep hpw
    have hge : 0 < (db.usage_daily.filter
        (fun r => dailyKeyMatch r oid d src ep)).length := by
      obtain ⟨x, hx, hpx⟩ := List.any_eq_true.1 hany
      exact List.length_pos_of_mem (List.mem_filter_of_mem hx hpx)
    omega
  · simp only [hany, Bool.false_eq_true, not_false_eq_true, if_false, if_neg]
    rw [List.filter_cons_of_pos (p := fun r => dailyKeyMatch r oid d src ep)
      (dailyKeyMatch_self oid d src ep reqs toks)]
    have hnil : db.usage_daily.filter (fun r => dailyKeyMatch r oid d src ep) = [] := by
      rw [List.filter_eq_nil_iff]
      intro x hx hpx
      exact hany (List.any_eq_true.2 ⟨x, hx, hpx⟩)
    rw [hnil]
    rfl

/-- C6: on a Rejected outcome the store is unchanged; on Allowed only the
matched key record's `last_used_at` field changes (set to `now`), every
other row and field being preserved; and a repeated call for the same
Allowed key returns the same Allowed fields. -/
theorem validate_frame_idempotent (db : DB) (h : String) (now ms : Int) :
    ((validate_api_key db h now ms).1.is_valid = false →
      (validate_api_key db h now ms).2 = db)
    ∧ ((validate_api_key db h now ms).1.is_valid = true →
      ((validate_api_key db h now ms).2.organizations = db.organizations
        ∧ (validate_api_key db h now ms).2.subscription_tiers = db.subscription_tiers
        ∧ (validate_api_key db h now ms).2.usage_daily = db.usage_daily
        ∧ List.Forall₂ (fun k1 k2 : ApiKey =>
            k2.id = k1.id ∧ k2.organization_id = k1.organization_id
            ∧ k2.key_hash = k1.key_hash
            ∧ k2.rate_limit_override = k1.rate_limit_override
            ∧ k2.is_active = k1.is_active ∧ k2.expires_at = k1.expires_at
            ∧ (k2.last_used_at = k1.last_used_at ∨ k2.last_used_at = some now))
          db.api_keys (validate_api_key db h now ms).2.api_keys))
    ∧ (∀ now2, (validate_api_key db h now ms).1.is_valid = true →
        (validate_api_key (validate_api_key db h now ms).2 h now2 ms).1.is_valid = true →
        (validate_api_key (validate_api_key db h now ms).2 h now2 ms).1
          = (validate_api_key db h now ms).1) := by
  refine ⟨validate_invalid_state db h now ms, ?_, ?_⟩
  · intro hv
    obtain ⟨k, hk, heq⟩ := validate_valid_result db h now ms hv
    rw [heq]
    refine ⟨rfl, rfl, rfl, ?_⟩
    show List.Forall₂ _ db.api_keys (touchKey db k.id now).api_keys
    unfold touchKey
    rw [List.forall₂_map_right_iff, List.forall₂_same]
    intro x hx
    by_cases hc : x.id = k.id
    · simp [hc]
    · simp [hc]
  · intro now2 hv1 hv2
    obtain ⟨k, hk, heq⟩ := validate_valid_result db h now ms hv1
    have h2 : (validate_api_key db h now ms).2 = touchKey db k.id now := by
      rw [heq]
    rw [h2, validate_result_touchKey] at hv2 ⊢
    obtain ⟨k2, hk2, heq2⟩ := validate_valid_result db h now2 ms hv2
    rw [hk] at hk2
    injection hk2 with hk2e
    subst hk2e
    rw [show (validate_api_key db h now2 ms).1
        = successRow k (findOrg db k.organization_id)
            (findTier db ((findOrg db k.organization_id).bind
              Organization.subscription_tier_id)) from by rw [heq2],
      show (validate_api_key db h now ms).1
        = successRow k (findOrg db k.organization_id)
            (findTier db ((findOrg db k.organization_id).bind
              Organization.subscription_tier_id)) from by rw [heq]]

theorem validate_frame_idempotent_witness :
    (validate_api_key dbBase ("nope") 100 0).2 = dbBase :=
  (validate_frame_idempotent dbBase ("nope") 100 0).1 (by decide)

theorem iter_counters (db : DB) (oid : Nat) (d : Int) (src ep : String) (n : Nat) :
    dailyCounters (iterIncrement db oid d src ep n) oid d src ep
      = ((dailyCounters db oid d src ep).1 + (n : Int),
         (dailyCounters db oid d src ep).2 + (n : Int)) := by
  induction n with
  | zero => simp [iterIncrement]
  | succ m ih =>
    show dailyCounters (increment_daily_usage (iterIncrement db oid d src ep m)
        oid d src ep 1 1) oid d src ep = _
    rw [increment_counters, ih]
    simp only [Prod.mk.injEq]
    constructor <;> push_cast <;> ring

theorem iter_counters_other (db : DB) (oid : Nat) (d : Int) (src ep : String)
    (n : Nat) (oid2 : Nat) (d2 : Int) (s2 e2 : String)
    (hne : ¬(oid2 = oid ∧ d2 = d ∧ s2 = src ∧ e2 = ep)) :
    dailyCounters (iterIncrement db oid d src ep n) oid2 d2 s2 e2
      = dailyCounters db oid2 d2 s2 e2 := by
  induction n with
  | zero => rfl
  | succ m ih =>
    show dailyCounters (increment_daily_usage (iterIncrement db oid d src ep m)
        oid d src ep 1 1) oid2 d2 s2 e2 = _
    rw [increment_counters_other _ _ _ _ _ _ _ _ _ _ _ hne, ih]

theorem iter_other_rows (db : DB) (oid : Nat) (d : Int) (src ep : String) (n : Nat) :
    (iterIncrement db oid d src ep n).usage_daily.filter
        (fun r => !(dailyKeyMatch r oid d src ep))
      = db.usage_daily.filter (fun r => !(dailyKeyMatch r oid d src ep))
    ∧ (iterIncrement db oid d src ep n).api_keys = db.api_keys
    ∧ (iterIncrement db oid d src ep n).organizations = db.organizations
    ∧ (iterIncrement db oid d src ep n).subscription_tiers = db.subscription_tiers := by
  induction n with
  | zero => exact ⟨rfl, rfl, rfl, rfl⟩
  | succ m ih =>
    obtain ⟨i1, i2, i3, i4⟩ := increment_other_rows
      (iterIncrement db oid d src ep m) oid d src ep 1 1
    exact ⟨by rw [show iterIncrement db oid d src ep (m + 1)
        = increment_daily_usage (iterIncrement db oid d src ep m) oid d src ep 1 1
        from rfl, i1, ih.1],
      by rw [show iterIncrement db oid d src ep (m + 1)
        = increment_daily_usage (iterIncrement db oid d src ep m) oid d src ep 1 1
        from rfl, i2, ih.2.1],
      by rw [show iterIncrement db oid d src ep (m + 1)
        = increment_daily_usage (iterIncrement db oid d src ep m) oid d src ep 1 1
        from rfl, i3, ih.2.2.1],
      by rw [show iterIncrement db oid d src ep (m + 1)
        = increment_daily_usage (iterIncrement db oid d src ep m) oid d src ep 1 1
        from rfl, i4, ih.2.2.2]⟩

theorem iter_pairwise (db : DB) (oid : Nat) (d : Int) (src ep : String) (n : Nat)
    (hpw : List.Pairwise distinctDailyKey db.usage_daily) :
    List.Pairwise distinctDailyKey (iterIncrement db oid d src ep n).usage_daily := by
  induction n with
  | zero => exact hpw
  | succ m ih => exact increment_pairwise _ oid d src ep 1 1 ih

theorem iter_count_one (db : DB) (oid : Nat) (d : Int) (src ep : String) (n : Nat)
    (hpw : List.Pairwise distinctDailyKey db.usage_daily) (hn : 1 ≤ n) :
    ((iterIncrement db oid d src ep n).usage_daily.filter
      (fun r => dailyKeyMatch r oid d src ep)).length = 1 := by
  cases n with
  | zero => cases hn
  | succ m =>
    exact increment_count_one _ oid d src ep 1 1
      (iter_pairwise db oid d src ep m hpw)

theorem increment_comm (db : DB) (oid : Nat) (d : Int) (src ep : String)
    (a b c e : Int) :
    increment_daily_usage (increment_daily_usage db oid d src ep a b)
        oid d src ep c e
      = increment_daily_usage (increment_daily_usage db oid d src ep c e)
        oid d src ep a b := by
  have hkey : ∀ x y : Int, ∀ r : UsageDaily,
      dailyKeyMatch (if dailyKeyMatch r oid d src ep then
          { r with request_count := r.request_count + x,
                   tokens_used := r.tokens_used + y }
        else r) oid d src ep = dailyKeyMatch r oid d src ep :=
    fun x y r => dailyKeyMatch_update r oid d src ep x y oid d src ep
  unfold increment_daily_usage
  by_cases hany : db.usage_daily.any (fun r => dailyKeyMatch r oid d src ep) = true
  · have hany2 : ∀ x y : Int,
        ((db.usage_daily.map (fun r =>
          if dailyKeyMatch r oid d src ep then
            { r with request_count := r.request_count + x,
                     tokens_used := r.tokens_used + y }
          else r)).any (fun r => dailyKeyMatch r oid d src ep)) = true := by
      intro x y
      rw [List.any_map]
      rw [List.any_eq_true] at hany ⊢
      obtain ⟨r, hr, hpr⟩ := hany
      exact ⟨r, hr, by simp only [Function.comp_def, hkey x y r]; exact hpr⟩
    simp only [hany, if_true, hany2, List.map_map]
    congr 1
    apply List.map_congr_left
    intro r _
    simp only [Function.comp_def]
    by_cases hre : dailyKeyMatch r oid d src ep = true
    · have h2b := hkey a b r
      rw [if_pos hre] at h2b
      have h3b := hkey c e r
      rw [if_pos hre] at h3b
      simp only [if_pos hre, h2b, h3b, UsageDaily.mk.injEq, true_and]
      exact ⟨by ring, by ring⟩
    · simp only [if_neg hre]
  · have hnew : ∀ x y : Int, dailyKeyMatch
        { organization_id := oid, date := d, source := src, endpoint := ep,
          request_count := x, tokens_used := y } oid d src ep = true :=
      fun x y => dailyKeyMatch_self oid d src ep x y
    have hothers : ∀ r ∈ db.usage_daily, dailyKeyMatch r oid d src ep = false := by
      intro r hr
      by_contra hb
      simp only [Bool.not_eq_false] at hb
      exact hany (List.any_eq_true.2 ⟨r, hr, hb⟩)
    have hany2 : ∀ x y : Int,
        (({ organization_id := oid, date := d, source := src, endpoint := ep,
            request_count := x, tokens_used := y } :: db.usage_daily).any
          (fun r => dailyKeyMatch r oid d src ep)) = true := by
      intro x y
      rw [List.any_eq_true]
      exact ⟨_, List.mem_cons_self _ _, hnew x y⟩
    simp only [hany, Bool.false_eq_true, not_false_eq_true, if_false, if_neg,
      hany2, if_true]
    simp only [List.map_cons, if_pos (hnew a b), if_pos (hnew c e)]
    have hmapid : ∀ x y : Int, db.usage_daily.map (fun r =>
        if dailyKeyMatch r oid d src ep then
          { r with request_count := r.request_count + x,
                   tokens_used := r.tokens_used + y }
        else r) = db.usage_daily := by
      intro x y
      have hmc := List.map_congr_left (l := db.usage_daily)
        (f := fun r => if dailyKeyMatch r oid d src ep then
          { r with request_count := r.request_count + x,
                   tokens_used := r.tokens_used + y }
        else r) (g := id) (fun r hr => by simp [hothers r hr])
      rw [hmc, List.map_id]
    rw [hmapid a b, hmapid c e]
    congr 2
    simp only [UsageDaily.mk.injEq, true_and]
    exact ⟨by ring, by ring⟩

/-- C7: `n` `increment_daily_usage` calls for one composite key with
deltas 1 leave that row's counters exactly `n` larger, change no other
row, preserve uniqueness of the composite key, leave exactly one row for
the key, and two increments to the same key commute. -/
theorem recordUsage_additive (db : DB) (oid : Nat) (d : Int)
    (src ep : String) (n : Nat) :
    dailyCounters (iterIncrement db oid d src ep n) oid d src ep
      = ((dailyCounters db oid d src ep).1 + (n : Int),
         (dailyCounters db oid d src ep).2 + (n : Int))
    ∧ (∀ oid2 : Nat, ∀ d2 : Int, ∀ s2 e2 : String,
        ¬(oid2 = oid ∧ d2 = d ∧ s2 = src ∧ e2 = ep) →
        dailyCounters (iterIncrement db oid d src ep n) oid2 d2 s2 e2
          = dailyCounters db oid2 d2 s2 e2)
    ∧ ((iterIncrement db oid d src ep n).usage_daily.filter
        (fun r => !(dailyKeyMatch r oid d src ep))
        = db.usage_daily.filter (fun r => !(dailyKeyMatch r oid d src ep)))
    ∧ (List.Pairwise distinctDailyKey db.usage_daily →
        List.Pairwise distinctDailyKey
          (iterIncrement db oid d src ep n).usage_daily)
    ∧ (List.Pairwise distinctDailyKey db.usage_daily → 1 ≤ n →
        ((iterIncrement db oid d src ep n).usage_daily.filter
          (fun r => dailyKeyMatch r oid d src ep)).length = 1)
    ∧ (∀ a b c e : Int,
        increment_daily_usage (increment_daily_usage db oid d src ep a b)
          oid d src ep c e
        = increment_daily_usage (increment_daily_usage db oid d src ep c e)
          oid d src ep a b) :=
  ⟨iter_counters db oid d src ep n,
   fun oid2 d2 s2 e2 hne => iter_counters_other db oid d src ep n oid2 d2 s2 e2 hne,
   (iter_other_rows db oid d src ep n).1,
   iter_pairwise db oid d src ep n,
   iter_count_one db oid d src ep n,
   increment_comm db oid d src ep⟩

theorem recordUsage_additive_witness :
    (dailyCounters (iterIncrement dbBase 1 10 ("api") ("vin") 3) 1 10 ("api") ("vin")
      = (5 + (3 : Int), 500 + (3 : Int)))
    ∧ ((iterIncrement dbBase 1 10 ("api") ("vin") 3).usage_daily.filter
        (fun r => dailyKeyMatch r 1 10 ("api") ("vin"))).length = 1 := by
  constructor
  · rw [(recordUsage_additive dbBase 1 10 ("api") ("vin") 3).1]
    decide
  · exact (recordUsage_additive dbBase 1 10 ("api") ("vin") 3).2.2.2.2.1
      (by simp [dbBase, distinctDailyKey]) (by decide)

theorem foldr_usage_spec (l : List UsageDaily) (oid : Nat) (ms : Int) :
    l.foldr (fun r acc =>
        if r.organization_id = oid ∧ ms ≤ r.date then
          (acc.1 + r.request_count, acc.2 + r.tokens_used)
        else acc) (0, 0)
      = (((l.filter (fun r =>
            decide (r.organization_id = oid ∧ ms ≤ r.date))).map
            UsageDaily.request_count).sum,
         ((l.filter (fun r =>
            decide (r.organization_id = oid ∧ ms ≤ r.date))).map
            UsageDaily.tokens_used).sum) := by
  induction l with
  | nil => rfl
  | cons r t ih =>
    simp only [List.foldr_cons, ih]
    by_cases hc : r.organization_id = oid ∧ ms ≤ r.date
    · rw [if_pos hc, List.filter_cons_of_pos (by simpa using hc)]
      simp only [List.map_cons, List.sum_cons, Prod.mk.injEq]
      constructor <;> ring
    · rw [if_neg hc, List.filter_cons_of_neg (by simpa using hc)]

/-- C8: `get_org_monthly_usage` returns exactly the pair of sums of
`request_count` and `tokens_used` over the organization's rows dated on
or after the month start, and `(0, 0)` when no such row exists. -/
theorem get_monthly_usage_spec (db : DB) (oid : Nat) (ms : Int) :
    get_org_monthly_usage db oid ms
      = (((db.usage_daily.filter (fun r =>
            decide (r.organization_id = oid ∧ ms ≤ r.date))).map
            UsageDaily.request_count).sum,
         ((db.usage_daily.filter (fun r =>
            decide (r.organization_id = oid ∧ ms ≤ r.date))).map
            UsageDaily.tokens_used).sum)
    ∧ ((∀ r ∈ db.usage_daily, ¬(r.organization_id = oid ∧ ms ≤ r.date)) →
        get_org_monthly_usage db oid ms = (0, 0)) := by
  constructor
  · exact foldr_usage_spec db.usage_daily oid ms
  · intro hno
    rw [show get_org_monthly_usage db oid ms
        = db.usage_daily.foldr (fun r acc =>
            if r.organization_id = oid ∧ ms ≤ r.date then
              (acc.1 + r.request_count, acc.2 + r.tokens_used)
            else acc) (0, 0) from rfl, foldr_usage_spec]
    have hnil : db.usage_daily.filter (fun r =>
        decide (r.organization_id = oid ∧ ms ≤ r.date)) = [] := by
      rw [List.filter_eq_nil_iff]
      intro x hx
      simpa using hno x hx
    rw [hnil]
    rfl

theorem get_monthly_usage_spec_witness :
    get_org_monthly_usage { dbBase with usage_daily := [] } 1 0 = (0, 0) :=
  (get_monthly_usage_spec { dbBase with usage_daily := [] } 1 0).2
    (by intro r hr; cases hr)

/-- C9: `increment_daily_usage` with non-negative deltas never decreases
any row's counters, and `validate_api_key` only ever advances
`last_used_at` forward in time (it overwrites it with the current time
only). -/
theorem usage_and_lastused_monotonic :
    (∀ db : DB, ∀ oid : Nat, ∀ d : Int, ∀ src ep : String, ∀ reqs toks : Int,
      0 ≤ reqs → 0 ≤ toks →
      ∀ oid2 : Nat, ∀ d2 : Int, ∀ s2 e2 : String,
        (dailyCounters db oid2 d2 s2 e2).1
          ≤ (dailyCounters (increment_daily_usage db oid d src ep reqs toks)
              oid2 d2 s2 e2).1
        ∧ (dailyCounters db oid2 d2 s2 e2).2
          ≤ (dailyCounters (increment_daily_usage db oid d src ep reqs toks)
              oid2 d2 s2 e2).2)
    ∧ (∀ db : DB, ∀ h : String, ∀ now ms : Int,
        (∀ k ∈ db.api_keys, ∀ t : Int, k.last_used_at = some t → t ≤ now) →
        List.Forall₂ (fun k1 k2 : ApiKey =>
          ∀ t : Int, k1.last_used_at = some t →
            ∃ u : Int, k2.last_used_at = some u ∧ t ≤ u)
          db.api_keys (validate_api_key db h now ms).2.api_keys) := by
  constructor
  · intro db oid d src ep reqs toks hreqs htoks oid2 d2 s2 e2
    by_cases hsame : oid2 = oid ∧ d2 = d ∧ s2 = src ∧ e2 = ep
    · obtain ⟨rfl, rfl, rfl, rfl⟩ := hsame
      rw [increment_counters]
      exact ⟨le_add_of_nonneg_right hreqs, le_add_of_nonneg_right htoks⟩
    · rw [increment_counters_other db oid d src ep reqs toks oid2 d2 s2 e2 hsame]
      exact ⟨le_refl _, le_refl _⟩
  · intro db h now ms H
    cases hv : (validate_api_key db h now ms).1.is_valid with
    | false =>
      rw [validate_invalid_state db h now ms hv]
      rw [List.forall₂_same]
      intro x _ t ht
      exact ⟨t, ht, le_refl t⟩
    | true =>
      obtain ⟨k, hk, heq⟩ := validate_valid_result db h now ms hv
      rw [show (validate_api_key db h now ms).2 = touchKey db k.id now from by
        rw [heq]]
      show List.Forall₂ _ db.api_keys (touchKey db k.id now).api_keys
      unfold touchKey
      rw [List.forall₂_map_right_iff, List.forall₂_same]
      intro x hx t ht
      by_cases hc : x.id = k.id
      · rw [if_pos hc]
        exact ⟨now, rfl, H x hx t ht⟩
      · rw [if_neg hc]
        exact ⟨t, ht, le_refl t⟩

theorem usage_and_lastused_monotonic_witness :
    (dailyCounters dbBase 1 10 ("api") ("vin")).2
      ≤ (dailyCounters (increment_daily_usage dbBase 1 10 ("api") ("vin") 0 7)
          1 10 ("api") ("vin")).2 :=
  (usage_and_lastused_monotonic.1 dbBase 1 10 ("api") ("vin") 0 7
    (by decide) (by decide) 1 10 ("api") ("vin")).2

theorem ne_org_reason (r : String) (hr : r.data.head? ≠ some ('o'))
    (s : String) : r ≠ "organization_" ++ s := by
  intro hcon
  apply hr
  rw [hcon, String.data_append]
  rfl

theorem fRR_shape (db : DB) (h : String) (now ms : Int)
    (h4 : checkOrgStatus db h = none) :
    firstRejectionReason db h now ms = none
    ∨ firstRejectionReason db h now ms = some ("invalid_key")
    ∨ firstRejectionReason db h now ms = some ("key_disabled")
    ∨ firstRejectionReason db h now ms = some ("key_expired")
    ∨ firstRejectionReason db h now ms = some ("subscription_inactive")
    ∨ firstRejectionReason db h now ms = some ("quota_exceeded") := by
  unfold firstRejectionReason
  by_cases c1 : checkInvalidKey db h = true
  · simp [c1]
  · simp only [c1, Bool.false_eq_true, not_false_eq_true, if_false]
    by_cases c2 : checkKeyDisabled db h = true
    · simp [c2]
    · simp only [c2, Bool.false_eq_true, not_false_eq_true, if_false]
      by_cases c3 : checkKeyExpired db h now = true
      · simp [c3]
      · simp only [c3, Bool.false_eq_true, not_false_eq_true, if_false, h4]
        by_cases c5 : checkSubscription db h = true
        · simp [c5]
        · simp only [c5, Bool.false_eq_true, not_false_eq_true, if_false]
          by_cases c6 : checkQuota db h ms = true
          · simp [c6]
          · simp [c6]

theorem tierPhase_congr_o (db : DB) (k : ApiKey) (o1 o2 : Option Organization)
    (tier : Option SubscriptionTier) (now ms : Int)
    (hn : o1.map Organization.name = o2.map Organization.name)
    (ht : o1.bind Organization.subscription_tier_id
      = o2.bind Organization.subscription_tier_id) :
    tierPhase db k o1 tier now ms = tierPhase db k o2 tier now ms := by
  unfold tierPhase
  cases hT : tier.bind SubscriptionTier.monthly_token_limit with
  | some lim =>
    by_cases hQ : lim ≤ (get_org_monthly_usage db k.organization_id ms).2
    · simp [hQ, hn, ht]
    · simp [hQ, hn, ht]
  | none => simp [hn, ht]

/-- C10: a NULL organization status is treated exactly like `active`: it
never produces an `organization_{status}` rejection, the organization
phase behaves identically to an `active` status, and such a key can be
Allowed. -/
theorem null_status_passes (db : DB) (h : String) (now ms : Int) :
    (∀ k o, findKey db h = some k →
      findOrg db k.organization_id = some o → o.status = none →
      ∀ s, (validate_api_key db h now ms).1.rejection_reason
        ≠ some ("organization_" ++ s))
    ∧ (∀ (k : ApiKey) (o : Organization),
        orgPhase db k (some { o with status := none }) now ms
          = orgPhase db k (some { o with status := some ("active") }) now ms)
    ∧ (validate_api_key dbNullStatus ("h1") 100 0).1.is_valid = true := by
  refine ⟨?_, ?_, by decide⟩
  · intro k o hk ho hstat s
    rw [validate_reason_eq]
    have h4 : checkOrgStatus db h = none := by
      simp [checkOrgStatus, hk, ho, orgStatusBlocked, hstat]
    rcases fRR_shape db h now ms h4 with hc | hc | hc | hc | hc | hc <;> rw [hc]
    · simp
    · intro hcon
      injection hcon with hcone
      exact ne_org_reason _ (by decide) s hcone
    · intro hcon
      injection hcon with hcone
      exact ne_org_reason _ (by decide) s hcone
    · intro hcon
      injection hcon with hcone
      exact ne_org_reason _ (by decide) s hcone
    · intro hcon
      injection hcon with hcone
      exact ne_org_reason _ (by decide) s hcone
    · intro hcon
      injection hcon with hcone
      exact ne_org_reason _ (by decide) s hcone
  · intro k o
    have e1 : orgStatusBlocked (some { o with status := none }) = none := by
      simp [orgStatusBlocked]
    have e2 : orgStatusBlocked (some { o with status := some ("active") })
        = none := by
      simp [orgStatusBlocked]
    have e3 : subscriptionBlocked (some { o with status := none })
        = subscriptionBlocked (some { o with status := some ("active") }) := by
      simp [subscriptionBlocked]
    have e4 : (some { o with status := none }).bind
          Organization.subscription_tier_id
        = (some { o with status := some ("active") }).bind
          Organization.subscription_tier_id := by
      simp
    unfold orgPhase
    rw [e1, e2, e3]
    by_cases hS : subscriptionBlocked
        (some { o with status := some ("active") }) = true
    · simp [hS]
    · simp only [hS, Bool.false_eq_true, not_false_eq_true, if_false]
      rw [e4]
      exact tierPhase_congr_o db k _ _ _ now ms (by simp) (by simp)

theorem null_status_passes_witness :
    (validate_api_key dbNullStatus ("h1") 100 0).1.rejection_reason
      ≠ some ("organization_" ++ "paused") :=
  (null_status_passes dbNullStatus ("h1") 100 0).1 keyLive
    { orgAcme with status := none } (by decide) (by decide) (by decide) "paused"

end CarIntel
